import Mathlib

/-!
Verification development for the CardPing_Multi session/sync core
(`src/Pong_Multi/src/main.cpp`).

The C++ globals are gathered into a `GameState` record; each relevant
function of the source becomes a pure Lean function on that record,
returning the list of packets it sends.  `float` fields are modelled as
exact rationals (the claims under study only copy, clamp and compare
them), machine integers as `Nat` with an explicit `% 2^32` (resp.
`% 2^8`) where the source can overflow, and the Arduino clock `millis()`
is an explicit `now : Nat` argument with the source's unsigned 32-bit
wrap-around subtraction made explicit (`wrapSub`).
-/

namespace Pong

/-- Modulus of the 32-bit unsigned integers (`uint32_t`, `unsigned long`). -/
def U32MOD : Nat := 4294967296

/-- Modulus of `uint8_t`. -/
def U8MOD : Nat := 256

/-- Source: `now - then` on `unsigned long` values, i.e. wrap-around
subtraction modulo `2^32`. -/
def wrapSub (now last : Nat) : Nat :=
  ((now % U32MOD) + U32MOD - last % U32MOD) % U32MOD

-- Gameplay configuration constants from the source file.

def PLAYER_NAME_MAX_LEN : Nat := 16

def UDP_PORT : Nat := 41000

def SCREEN_WIDTH : ℚ := 240

def SCREEN_HEIGHT : ℚ := 135

def PADDLE_WIDTH : ℚ := 8

def PADDLE_HEIGHT : ℚ := 34

def PADDLE_HALF_HEIGHT : ℚ := PADDLE_HEIGHT * (1/2)

def HOST_PADDLE_X : ℚ := 16

def CLIENT_PADDLE_X : ℚ := SCREEN_WIDTH - HOST_PADDLE_X - PADDLE_WIDTH

def PADDLE_SPEED : ℚ := 170

def BALL_RADIUS : ℚ := 5

def BALL_SPEED_INITIAL : ℚ := 170

def BALL_SPEED_GROWTH : ℚ := 106/100

def MAX_SCORE : Nat := 7

def SERVE_DELAY_MS : Nat := 1300

def STATE_SEND_INTERVAL_MS : Nat := 32

def PADDLE_SEND_INTERVAL_MS : Nat := 45

def JOIN_BROADCAST_INTERVAL_MS : Nat := 800

def CONNECTION_TIMEOUT_MS : Nat := 4000

def FLAG_MATCH_ACTIVE : Nat := 1

def FLAG_WAITING_SERVE : Nat := 2

def FLAG_GAME_OVER : Nat := 4

def FLAG_PAUSED : Nat := 8

/-- `enum class Role`. -/
inductive Role where
  | None
  | Host
  | Client
deriving DecidableEq

/-- `enum class Screen`. -/
inductive Screen where
  | WifiSelect
  | WifiPassword
  | NameEntry
  | RoleSelect
  | HostWaiting
  | ClientSearching
  | Lobby
  | Playing
  | GameOver
  | Error
deriving DecidableEq

/-- Underlying `uint8_t` value of a `Screen`, used by the source's
`g_screen >= Screen::Playing` comparisons. -/
def screenIdx : Screen → Nat
  | Screen.WifiSelect => 0
  | Screen.WifiPassword => 1
  | Screen.NameEntry => 2
  | Screen.RoleSelect => 3
  | Screen.HostWaiting => 4
  | Screen.ClientSearching => 5
  | Screen.Lobby => 6
  | Screen.Playing => 7
  | Screen.GameOver => 8
  | Screen.Error => 9

/-- The wire `StatePacket` (type tag omitted: it is fixed to 3). -/
structure StatePacket where
  flags : Nat
  hostScore : Nat
  clientScore : Nat
  frameId : Nat
  ballX : ℚ
  ballY : ℚ
  ballVX : ℚ
  ballVY : ℚ
  hostPaddleY : ℚ
  clientPaddleY : ℚ
deriving DecidableEq

/-- Payload of an outbound datagram, one constructor per wire message kind. -/
inductive Payload where
  | join (name : String)
  | joinAck (name : String)
  | start (seed : Nat)
  | paddle (y : ℚ)
  | state (p : StatePacket)
deriving DecidableEq

/-- An outbound datagram: destination plus payload. -/
structure Sent where
  destIp : Nat
  destPort : Nat
  payload : Payload
deriving DecidableEq

/-- An inbound datagram as seen by `processNetwork`: `size` is the value
returned by `parsePacket`, `tag` is `buffer[0]`, and the remaining fields
are the fixed-layout decodings of the buffer as each packet kind (the
`memcpy` reinterpretations); a decoding is only consulted when `size`
covers that kind, so fields beyond the actual bytes are unconstrained. -/
structure Datagram where
  size : Nat
  tag : Nat
  name : String
  seed : Nat
  paddleY : ℚ
  state : StatePacket
  srcIp : Nat
  srcPort : Nat
deriving DecidableEq

/-- Fixed decoded size (`sizeof` of the packed struct) demanded for each
known type tag before its handler may run. -/
def requiredSize : Nat → Option Nat
  | 1 => some 17
  | 2 => some 17
  | 3 => some 32
  | 4 => some 5
  | 5 => some 5
  | _ => none

/-- All the source globals the session/sync core reads or writes. -/
structure GameState where
  role : Role
  screen : Screen
  hasPeer : Bool
  peerIp : Nat
  peerPort : Nat
  hostPaddleY : ℚ
  clientPaddleY : ℚ
  ballX : ℚ
  ballY : ℚ
  ballVX : ℚ
  ballVY : ℚ
  hostScore : Nat
  clientScore : Nat
  matchActive : Bool
  waitingForServe : Bool
  gameOver : Bool
  gamePaused : Bool
  serveDirection : Int
  lastStateSent : Nat
  lastPaddleSent : Nat
  lastJoinBroadcast : Nat
  lastStateReceived : Nat
  serveRequestTs : Nat
  frameCounter : Nat
  rngSeed : Nat
  errorMessage : String
  localName : String
  remoteName : String
deriving DecidableEq

/-- Initial values of the globals at boot. -/
def initialState : GameState where
  role := Role.None
  screen := Screen.WifiSelect
  hasPeer := false
  peerIp := 0
  peerPort := UDP_PORT
  hostPaddleY := SCREEN_HEIGHT * (1/2)
  clientPaddleY := SCREEN_HEIGHT * (1/2)
  ballX := SCREEN_WIDTH * (1/2)
  ballY := SCREEN_HEIGHT * (1/2)
  ballVX := 0
  ballVY := 0
  hostScore := 0
  clientScore := 0
  matchActive := false
  waitingForServe := false
  gameOver := false
  gamePaused := false
  serveDirection := 1
  lastStateSent := 0
  lastPaddleSent := 0
  lastJoinBroadcast := 0
  lastStateReceived := 0
  serveRequestTs := 0
  frameCounter := 0
  rngSeed := 0
  errorMessage := ""
  localName := "Player"
  remoteName := "Opponent"

/-- `setScreen` (the `onScreenEnter` hook only touches decorative UI
globals that are outside this model). -/
def setScreen (s : GameState) (next : Screen) : GameState :=
  { s with screen := next }

/-- `clampValue`. -/
def clampValue (value minValue maxValue : ℚ) : ℚ :=
  if value < minValue then minValue
  else if maxValue < value then maxValue
  else value

/-- `centerBallStationary`. -/
def centerBallStationary (s : GameState) : GameState :=
  { s with ballX := SCREEN_WIDTH * (1/2), ballY := SCREEN_HEIGHT * (1/2),
           ballVX := 0, ballVY := 0 }

/-- `prepareServe`. -/
def prepareServe (s : GameState) (direction : Int) (now : Nat) : GameState :=
  centerBallStationary
    { s with serveDirection := direction, waitingForServe := true,
             matchActive := true, serveRequestTs := now }

/-- `launchBall`; `arc` is the result of `random(-60, 61)`. -/
def launchBall (s : GameState) (arc : Int) : GameState :=
  { s with waitingForServe := false,
           ballVX := BALL_SPEED_INITIAL * (s.serveDirection : ℚ),
           ballVY := BALL_SPEED_INITIAL * (6/10) * ((arc : ℚ) / 100) }

/-- `resetPaddles`. -/
def resetPaddles (s : GameState) : GameState :=
  { s with hostPaddleY := SCREEN_HEIGHT * (1/2),
           clientPaddleY := SCREEN_HEIGHT * (1/2) }

/-- `resetMatchState`. -/
def resetMatchState (s : GameState) : GameState :=
  centerBallStationary (resetPaddles
    { s with hostScore := 0, clientScore := 0, gameOver := false,
             matchActive := false, waitingForServe := false,
             gamePaused := false, frameCounter := 0 })

/-- `setRemotePlayerName`. -/
def setRemotePlayerName (s : GameState) (name : String) : GameState :=
  if name = "" then
    { s with remoteName := if s.role = Role.Host then "Challenger" else "Host" }
  else
    let candidate := name.trim
    if candidate = "" then
      { s with remoteName := if s.role = Role.Host then "Challenger" else "Host" }
    else
      { s with remoteName := candidate }

/-- Flags byte assembled by `sendStatePacket`. -/
def flagsOf (s : GameState) : Nat :=
  (if s.matchActive = true then FLAG_MATCH_ACTIVE else 0) |||
  (if s.waitingForServe = true then FLAG_WAITING_SERVE else 0) |||
  (if s.gameOver = true then FLAG_GAME_OVER else 0) |||
  (if s.gamePaused = true then FLAG_PAUSED else 0)

/-- The `StatePacket` that `sendStatePacket` fills from the globals. -/
def buildStatePacket (s : GameState) (fid : Nat) : StatePacket where
  flags := flagsOf s
  hostScore := s.hostScore
  clientScore := s.clientScore
  frameId := fid
  ballX := s.ballX
  ballY := s.ballY
  ballVX := s.ballVX
  ballVY := s.ballVY
  hostPaddleY := s.hostPaddleY
  clientPaddleY := s.clientPaddleY

/-- `sendJoinAck`. -/
def sendJoinAck (s : GameState) : GameState × List Sent :=
  if s.hasPeer = false then (s, [])
  else (s, [⟨s.peerIp, s.peerPort,
             Payload.joinAck (s.localName.take (PLAYER_NAME_MAX_LEN - 1))⟩])

/-- `sendStartPacket`. -/
def sendStartPacket (s : GameState) (seed : Nat) : GameState × List Sent :=
  if s.hasPeer = false then (s, [])
  else (s, [⟨s.peerIp, s.peerPort, Payload.start seed⟩])

/-- `sendStatePacket`: guarded on `hasPeer` and `role == Host`; stamps
`++g_frameCounter` (32-bit) on the packet. -/
def sendStatePacket (s : GameState) (now : Nat) : GameState × List Sent :=
  if s.hasPeer = false ∨ s.role ≠ Role.Host then (s, [])
  else
    let fid := (s.frameCounter + 1) % U32MOD
    ({ s with frameCounter := fid, lastStateSent := now },
     [⟨s.peerIp, s.peerPort, Payload.state (buildStatePacket s fid)⟩])

/-- `sendPaddlePacket`. -/
def sendPaddlePacket (s : GameState) (now : Nat) : GameState × List Sent :=
  if s.hasPeer = false ∨ s.role ≠ Role.Client then (s, [])
  else ({ s with lastPaddleSent := now },
        [⟨s.peerIp, s.peerPort, Payload.paddle s.clientPaddleY⟩])

/-- `sendJoinBroadcast` destination address (255.255.255.255). -/
def BROADCAST_IP : Nat := 4294967295

/-- `sendJoinBroadcast`. -/
def sendJoinBroadcast (s : GameState) : GameState × List Sent :=
  (s, [⟨BROADCAST_IP, UDP_PORT,
        Payload.join (s.localName.take (PLAYER_NAME_MAX_LEN - 1))⟩])

/-- `markGameOver`. -/
def markGameOver (s : GameState) (now : Nat) : GameState × List Sent :=
  let s1 := centerBallStationary
    { s with gameOver := true, matchActive := false, waitingForServe := false }
  let r := if s1.role = Role.Host then sendStatePacket s1 now else (s1, [])
  (setScreen r.1 Screen.GameOver, r.2)

/-- `processStatePacket` (client-side wholesale overwrite of MatchState). -/
def processStatePacket (s : GameState) (p : StatePacket) (now : Nat) : GameState :=
  let wasGameOver := s.gameOver
  let gameOver := p.flags &&& FLAG_GAME_OVER != 0
  let waitingForServe := p.flags &&& FLAG_WAITING_SERVE != 0
  let gamePaused := p.flags &&& FLAG_PAUSED != 0
  let matchActive := (p.flags &&& FLAG_MATCH_ACTIVE != 0) || waitingForServe
  let s1 := { s with hostScore := p.hostScore, clientScore := p.clientScore,
                     ballX := p.ballX, ballY := p.ballY,
                     ballVX := p.ballVX, ballVY := p.ballVY,
                     hostPaddleY := p.hostPaddleY,
                     clientPaddleY := p.clientPaddleY,
                     gameOver := gameOver, waitingForServe := waitingForServe,
                     gamePaused := gamePaused, matchActive := matchActive }
  let s2 :=
    if gameOver = true ∧ wasGameOver = false then setScreen s1 Screen.GameOver
    else if gameOver = false ∧ matchActive = true ∧ s1.screen ≠ Screen.Playing then
      setScreen s1 Screen.Playing
    else s1
  { s2 with lastStateReceived := now }

/-- `hostStartMatch`. -/
def hostStartMatch (s : GameState) (seed : Nat) (now : Nat) : GameState × List Sent :=
  let s1 := prepareServe (resetMatchState { s with rngSeed := seed }) 1 now
  sendStatePacket (setScreen s1 Screen.Playing) now

/-- `clientStartMatch`. -/
def clientStartMatch (s : GameState) (seed : Nat) : GameState :=
  let s1 := resetMatchState { s with rngSeed := seed }
  setScreen
    { s1 with waitingForServe := true, matchActive := true, serveDirection := 1 }
    Screen.Playing

/-- One iteration of the `processNetwork` receive loop on a single inbound
datagram: the 128-byte ceiling, then dispatch on `buffer[0]` with the
per-kind length/role/screen guards of the source `switch`. -/
def processDatagram (s : GameState) (d : Datagram) (now : Nat) : GameState × List Sent :=
  if 128 < d.size then (s, [])
  else if d.tag = 1 then
    if 17 ≤ d.size ∧ s.role = Role.Host ∧ s.screen = Screen.HostWaiting then
      let s1 := setRemotePlayerName s d.name
      let s2 := { s1 with peerIp := d.srcIp, peerPort := d.srcPort, hasPeer := true }
      let r := sendJoinAck s2
      (setScreen (resetMatchState r.1) Screen.Lobby, r.2)
    else (s, [])
  else if d.tag = 2 then
    if 17 ≤ d.size ∧ s.role = Role.Client ∧ s.screen = Screen.ClientSearching then
      let s1 := setRemotePlayerName s d.name
      let s2 := { s1 with peerIp := d.srcIp, peerPort := d.srcPort, hasPeer := true }
      (setScreen (resetMatchState s2) Screen.Lobby, [])
    else (s, [])
  else if d.tag = 3 then
    if 32 ≤ d.size ∧ s.role = Role.Client then (processStatePacket s d.state now, [])
    else (s, [])
  else if d.tag = 4 then
    if 5 ≤ d.size ∧ s.role = Role.Host ∧ s.hasPeer = true then
      ({ s with clientPaddleY :=
            clampValue d.paddleY PADDLE_HALF_HEIGHT (SCREEN_HEIGHT - PADDLE_HALF_HEIGHT) }, [])
    else (s, [])
  else if d.tag = 5 then
    if 5 ≤ d.size then
      if s.role = Role.Host then hostStartMatch s d.seed now
      else (clientStartMatch s d.seed, [])
    else (s, [])
  else (s, [])

/-- `handleConnectionTimeout` (the Host branch of the source is an
explicit no-op). -/
def handleConnectionTimeout (s : GameState) (now : Nat) : GameState :=
  if s.hasPeer = false then s
  else if s.role = Role.Client ∧ screenIdx Screen.Playing ≤ screenIdx s.screen ∧
          CONNECTION_TIMEOUT_MS < wrapSub now s.lastStateReceived then
    { setScreen { s with errorMessage := "Lost connection to host." } Screen.Error
      with hasPeer := false }
  else s

/-- `checkForServeLaunch`. -/
def checkForServeLaunch (s : GameState) (now : Nat) (arc : Int) : GameState :=
  if s.waitingForServe = true ∧ SERVE_DELAY_MS ≤ wrapSub now s.serveRequestTs then
    launchBall s arc
  else s

/-- Ball integration, wall bounces and the two paddle collisions of
`updateHostGameplay` (these touch only the ball fields). -/
def ballPhysics (s : GameState) (dt : ℚ) : GameState :=
  let s1 := { s with ballX := s.ballX + s.ballVX * dt,
                     ballY := s.ballY + s.ballVY * dt }
  let s2 := if s1.ballY - BALL_RADIUS ≤ 0 then
      { s1 with ballY := BALL_RADIUS, ballVY := -s1.ballVY }
    else s1
  let s3 := if SCREEN_HEIGHT ≤ s2.ballY + BALL_RADIUS then
      { s2 with ballY := SCREEN_HEIGHT - BALL_RADIUS, ballVY := -s2.ballVY }
    else s2
  let s4 := if s3.ballVX < 0 ∧
               s3.ballX - BALL_RADIUS ≤ HOST_PADDLE_X + PADDLE_WIDTH ∧
               HOST_PADDLE_X ≤ s3.ballX - BALL_RADIUS ∧
               s3.hostPaddleY - PADDLE_HALF_HEIGHT ≤ s3.ballY ∧
               s3.ballY ≤ s3.hostPaddleY + PADDLE_HALF_HEIGHT then
      { s3 with ballX := HOST_PADDLE_X + PADDLE_WIDTH + BALL_RADIUS,
                ballVX := |s3.ballVX| * BALL_SPEED_GROWTH,
                ballVY := s3.ballVY +
                  ((s3.ballY - s3.hostPaddleY) / PADDLE_HALF_HEIGHT) * 45 }
    else s3
  let s5 := if 0 < s4.ballVX ∧
               CLIENT_PADDLE_X ≤ s4.ballX + BALL_RADIUS ∧
               s4.ballX + BALL_RADIUS ≤ CLIENT_PADDLE_X + PADDLE_WIDTH ∧
               s4.clientPaddleY - PADDLE_HALF_HEIGHT ≤ s4.ballY ∧
               s4.ballY ≤ s4.clientPaddleY + PADDLE_HALF_HEIGHT then
      { s4 with ballX := CLIENT_PADDLE_X - BALL_RADIUS,
                ballVX := -(|s4.ballVX| * BALL_SPEED_GROWTH),
                ballVY := s4.ballVY +
                  ((s4.ballY - s4.clientPaddleY) / PADDLE_HALF_HEIGHT) * 45 }
    else s4
  s5

/-- The scoring tail of `updateHostGameplay`: goal-edge exit, `uint8_t`
score increment, win check, re-serve. -/
def scoringPhase (s : GameState) (now : Nat) : GameState × List Sent :=
  if s.ballX + BALL_RADIUS < 0 then
    let s1 := { s with clientScore := (s.clientScore + 1) % U8MOD }
    if MAX_SCORE ≤ s1.clientScore then markGameOver s1 now
    else (prepareServe s1 1 now, [])
  else if SCREEN_WIDTH < s.ballX - BALL_RADIUS then
    let s1 := { s with hostScore := (s.hostScore + 1) % U8MOD }
    if MAX_SCORE ≤ s1.hostScore then markGameOver s1 now
    else (prepareServe s1 (-1) now, [])
  else (s, [])

/-- `updateHostGameplay`; `up`/`dn` are the held paddle keys, `arc` the
serve randomization. -/
def updateHostGameplay (s : GameState) (up dn : Bool) (now : Nat) (dt : ℚ)
    (arc : Int) : GameState × List Sent :=
  if s.matchActive = false ∧ s.waitingForServe = false then (s, [])
  else
    let s1 := if up = true then
        { s with hostPaddleY := s.hostPaddleY - PADDLE_SPEED * dt }
      else s
    let s2 := if dn = true then
        { s1 with hostPaddleY := s1.hostPaddleY + PADDLE_SPEED * dt }
      else s1
    let s3 := { s2 with hostPaddleY := clampValue s2.hostPaddleY PADDLE_HALF_HEIGHT (SCREEN_HEIGHT - PADDLE_HALF_HEIGHT) }
    let s4 := checkForServeLaunch s3 now arc
    if s4.waitingForServe = true then (s4, [])
    else scoringPhase (ballPhysics s4 dt) now

/-- `updateClientGameplay`. -/
def updateClientGameplay (s : GameState) (up dn : Bool) (now : Nat) (dt : ℚ) :
    GameState × List Sent :=
  if s.hasPeer = false then (s, [])
  else
    let moved := up || dn
    let s1 := if up = true then
        { s with clientPaddleY := s.clientPaddleY - PADDLE_SPEED * dt }
      else s
    let s2 := if dn = true then
        { s1 with clientPaddleY := s1.clientPaddleY + PADDLE_SPEED * dt }
      else s1
    let s3 := { s2 with clientPaddleY := clampValue s2.clientPaddleY PADDLE_HALF_HEIGHT (SCREEN_HEIGHT - PADDLE_HALF_HEIGHT) }
    if moved = true ∨ PADDLE_SEND_INTERVAL_MS < wrapSub now s.lastPaddleSent then
      sendPaddlePacket s3 now
    else (s3, [])

/-- `resetToMainMenu`. -/
def resetToMainMenu (s : GameState) : GameState :=
  setScreen
    { resetMatchState
        { s with hasPeer := false, peerIp := 0, peerPort := UDP_PORT,
                 role := Role.None }
      with remoteName := "Opponent" }
    Screen.RoleSelect

/-- `resetToWifiSetup` (network rescan is decorative UI). -/
def resetToWifiSetup (s : GameState) : GameState :=
  setScreen
    { resetMatchState
        { s with hasPeer := false, peerIp := 0, peerPort := UDP_PORT,
                 role := Role.None }
      with remoteName := "Opponent" }
    Screen.WifiSelect

/-- `startHosting`; `bindOk` is the success of `resetUdp`. -/
def startHosting (s : GameState) (bindOk : Bool) : GameState :=
  if bindOk = false then
    setScreen { s with errorMessage := "UDP bind failed." } Screen.Error
  else
    setScreen
      { resetMatchState { s with role := Role.Host, hasPeer := false }
        with remoteName := "Opponent" }
      Screen.HostWaiting

/-- `startJoining`; `bindOk` is the success of `resetUdp`. -/
def startJoining (s : GameState) (bindOk : Bool) : GameState :=
  if bindOk = false then
    setScreen { s with errorMessage := "UDP bind failed." } Screen.Error
  else
    setScreen
      { resetMatchState { s with role := Role.Client, hasPeer := false }
        with lastJoinBroadcast := 0, remoteName := "Host" }
      Screen.ClientSearching

/-- The Lobby/GameOver serve command of the main loop:
`sendStartPacket(seed); hostStartMatch(seed);`. -/
def serveCommand (s : GameState) (seed now : Nat) : GameState × List Sent :=
  let r1 := sendStartPacket s seed
  let r2 := hostStartMatch r1.1 seed now
  (r2.1, r1.2 ++ r2.2)

/-- The Esc branch of the Playing loop case on the host: toggle
`g_gamePaused` and immediately re-send state. -/
def pauseToggle (s : GameState) (now : Nat) : GameState × List Sent :=
  sendStatePacket { s with gamePaused := !s.gamePaused } now

-- ---------------------------------------------------------------------------
-- Closed two-peer system used for the reachable-state invariants.

/-- One externally observable event a single peer can undergo: the local
commands dispatched by `loop()`, the periodic duties, and the receipt of
one inbound datagram. -/
inductive Event where
  | quitCmd
  | wifiCmd
  | hostCmd (bindOk : Bool)
  | joinCmd (bindOk : Bool)
  | serveCmd (seed now : Nat)
  | pauseCmd (now : Nat)
  | stateSend (now : Nat)
  | hostTick (up dn : Bool) (now : Nat) (dt : ℚ) (arc : Int)
  | clientTick (up dn : Bool) (now : Nat) (dt : ℚ)
  | joinBroadcastTick (now : Nat)
  | timeoutCheck (now : Nat)
  | recv (d : Datagram) (now : Nat)
  | setName (n : String)

/-- Effect of one event on one peer (new state, datagrams sent). -/
def applyEvent (s : GameState) (e : Event) : GameState × List Sent :=
  match e with
  | Event.quitCmd => (resetToMainMenu s, [])
  | Event.wifiCmd => (resetToWifiSetup s, [])
  | Event.hostCmd bindOk => (startHosting s bindOk, [])
  | Event.joinCmd bindOk => (startJoining s bindOk, [])
  | Event.serveCmd seed now => serveCommand s seed now
  | Event.pauseCmd now => pauseToggle s now
  | Event.stateSend now => sendStatePacket s now
  | Event.hostTick up dn now dt arc => updateHostGameplay s up dn now dt arc
  | Event.clientTick up dn now dt => updateClientGameplay s up dn now dt
  | Event.joinBroadcastTick now =>
      let r := sendJoinBroadcast s
      ({ r.1 with lastJoinBroadcast := now }, r.2)
  | Event.timeoutCheck now => (handleConnectionTimeout s now, [])
  | Event.recv d now => processDatagram s d now
  | Event.setName n => ({ s with localName := n }, [])

/-- The State packets among a list of sends (the only payloads whose
content another peer copies unclamped). -/
def sentStates (out : List Sent) : List StatePacket :=
  out.filterMap (fun m => match m.payload with
    | Payload.state p => some p
    | _ => none)

/-- The closed system: two peers running the firmware and the multiset of
State packets ever put on the wire (kept forever: UDP may duplicate,
reorder or drop, so delivery reads an arbitrary element). -/
structure Sys where
  a : GameState
  b : GameState
  wire : List StatePacket
deriving DecidableEq

/-- Boot configuration of the two-peer system. -/
def sysInit : Sys := ⟨initialState, initialState, []⟩

/-- Side condition on an event: a received datagram that would be handled
as a State packet must carry a State packet that is actually on the wire;
every other datagram (including malformed, truncated, spoofed Join /
JoinAck / Paddle / Start traffic) is arbitrary, as on a shared subnet. -/
def EventOk (w : Sys) (e : Event) : Prop :=
  match e with
  | Event.recv d _ => d.tag = 3 → 32 ≤ d.size → d.size ≤ 128 → d.state ∈ w.wire
  | _ => True

/-- Apply an event to peer `a`, publishing its State sends. -/
def stepPeerA (w : Sys) (e : Event) : Sys :=
  ⟨(applyEvent w.a e).1, w.b, w.wire ++ sentStates (applyEvent w.a e).2⟩

/-- Apply an event to peer `b`, publishing its State sends. -/
def stepPeerB (w : Sys) (e : Event) : Sys :=
  ⟨w.a, (applyEvent w.b e).1, w.wire ++ sentStates (applyEvent w.b e).2⟩

/-- One step of the closed two-peer system. -/
inductive SysStep : Sys → Sys → Prop where
  | stepA (w : Sys) (e : Event) (h : EventOk w e) : SysStep w (stepPeerA w e)
  | stepB (w : Sys) (e : Event) (h : EventOk w e) : SysStep w (stepPeerB w e)

/-- Reachable configurations of the closed two-peer system. -/
inductive SysReach : Sys → Prop where
  | init : SysReach sysInit
  | next (w w' : Sys) (hw : SysReach w) (hs : SysStep w w') : SysReach w'

/-- The per-peer state invariant: bounded scores, clamped paddles, and the
flag discipline (`waitingForServe` only while a match is active, active
matches never at the win threshold yet). -/
def StateInv (s : GameState) : Prop :=
  s.hostScore ≤ MAX_SCORE ∧ s.clientScore ≤ MAX_SCORE ∧
  PADDLE_HALF_HEIGHT ≤ s.hostPaddleY ∧
  s.hostPaddleY ≤ SCREEN_HEIGHT - PADDLE_HALF_HEIGHT ∧
  PADDLE_HALF_HEIGHT ≤ s.clientPaddleY ∧
  s.clientPaddleY ≤ SCREEN_HEIGHT - PADDLE_HALF_HEIGHT ∧
  (s.waitingForServe = true → s.matchActive = true) ∧
  (s.matchActive = true → s.hostScore < MAX_SCORE ∧ s.clientScore < MAX_SCORE)

/-- What every State packet the firmware ever emits satisfies. -/
def GoodPkt (p : StatePacket) : Prop :=
  p.hostScore ≤ MAX_SCORE ∧ p.clientScore ≤ MAX_SCORE ∧
  PADDLE_HALF_HEIGHT ≤ p.hostPaddleY ∧
  p.hostPaddleY ≤ SCREEN_HEIGHT - PADDLE_HALF_HEIGHT ∧
  PADDLE_HALF_HEIGHT ≤ p.clientPaddleY ∧
  p.clientPaddleY ≤ SCREEN_HEIGHT - PADDLE_HALF_HEIGHT ∧
  (p.flags &&& FLAG_MATCH_ACTIVE ≠ 0 ∨ p.flags &&& FLAG_WAITING_SERVE ≠ 0 →
    p.hostScore < MAX_SCORE ∧ p.clientScore < MAX_SCORE)

/-- System-wide invariant: both peers satisfy `StateInv` and every State
packet on the wire is good. -/
def SysInv (w : Sys) : Prop :=
  StateInv w.a ∧ StateInv w.b ∧ ∀ p ∈ w.wire, GoodPkt p

/-- The MatchState portion of the globals (the record the spec's data
model calls MatchState): scores, ball, paddles, flags. -/
structure MatchView where
  hostScore : Nat
  clientScore : Nat
  ballX : ℚ
  ballY : ℚ
  ballVX : ℚ
  ballVY : ℚ
  hostPaddleY : ℚ
  clientPaddleY : ℚ
  matchActive : Bool
  waitingForServe : Bool
  gameOver : Bool
  gamePaused : Bool
deriving DecidableEq

/-- Project the MatchState fields out of the globals. -/
def matchView (s : GameState) : MatchView where
  hostScore := s.hostScore
  clientScore := s.clientScore
  ballX := s.ballX
  ballY := s.ballY
  ballVX := s.ballVX
  ballVY := s.ballVY
  hostPaddleY := s.hostPaddleY
  clientPaddleY := s.clientPaddleY
  matchActive := s.matchActive
  waitingForServe := s.waitingForServe
  gameOver := s.gameOver
  gamePaused := s.gamePaused

-- ---------------------------------------------------------------------------
-- Concrete fixtures used by witnesses and counterexamples.

/-- An all-zero State packet decoding. -/
def zeroPkt : StatePacket := ⟨0, 0, 0, 0, 0, 0, 0, 0, 0, 0⟩

/-- A State packet whose flags byte has only the waitingForServe bit set
(matchActive bit clear). -/
def wsOnlyPkt : StatePacket := ⟨2, 3, 4, 9, 1, 2, 3, 4, 50, 60⟩

/-- A Client that is linked and playing. -/
def clientPlaying : GameState :=
  { initialState with role := Role.Client, hasPeer := true,
                      screen := Screen.Playing, lastStateReceived := 0 }

/-- A Host that is linked and sitting in the Lobby. -/
def hostLinked : GameState :=
  { initialState with role := Role.Host, hasPeer := true, screen := Screen.Lobby }

/-- A Host waiting for an opponent (no peer linked yet). -/
def hostWaitingState : GameState :=
  { initialState with role := Role.Host, screen := Screen.HostWaiting }

/-- A well-formed inbound Join datagram. -/
def joinDgram : Datagram :=
  { size := 17, tag := 1, name := "Bob", seed := 0, paddleY := 0,
    state := zeroPkt, srcIp := 42, srcPort := 1000 }

/-- A well-formed inbound Start datagram. -/
def startDgram : Datagram :=
  { size := 5, tag := 5, name := "", seed := 99, paddleY := 0,
    state := zeroPkt, srcIp := 7, srcPort := 7 }

/-- An inbound datagram above the 128-byte safety ceiling. -/
def bigDgram : Datagram :=
  { size := 129, tag := 3, name := "", seed := 0, paddleY := 0,
    state := zeroPkt, srcIp := 7, srcPort := 7 }

-- ---------------------------------------------------------------------------
-- Helper lemmas.

@[simp]
theorem setRemotePlayerName_localName (s : GameState) (n : String) :
    (setRemotePlayerName s n).localName = s.localName := by
  simp only [setRemotePlayerName]
  split_ifs <;> rfl

theorem wrapSub_eq (a b : Nat) (h1 : b ≤ a) (h2 : a < U32MOD) :
    wrapSub a b = a - b := by
  unfold wrapSub U32MOD at *
  omega

theorem matchView_processStatePacket (s : GameState) (p : StatePacket) (now : Nat) :
    matchView (processStatePacket s p now) =
      ⟨p.hostScore, p.clientScore, p.ballX, p.ballY, p.ballVX, p.ballVY,
       p.hostPaddleY, p.clientPaddleY,
       (p.flags &&& FLAG_MATCH_ACTIVE != 0) || (p.flags &&& FLAG_WAITING_SERVE != 0),
       p.flags &&& FLAG_WAITING_SERVE != 0,
       p.flags &&& FLAG_GAME_OVER != 0,
       p.flags &&& FLAG_PAUSED != 0⟩ := by
  simp only [processStatePacket, matchView, setScreen]
  split_ifs <;> rfl

-- ---------------------------------------------------------------------------
-- C1.

/-- C1 counterexample: a State packet whose flags byte has the
waitingForServe bit set but the matchActive bit clear makes the client set
`matchActive = true`, so the four flags are not mirrored as-is from the
packet's flags byte. -/
theorem C1_counterexample :
    (processStatePacket clientPlaying wsOnlyPkt 5).matchActive = true ∧
    wsOnlyPkt.flags &&& FLAG_MATCH_ACTIVE = 0 := by
  decide

/-- C1 (amended): `processStatePacket` copies both scores verbatim and
mirrors gameOver, waitingForServe and paused as-is from the packet's flags
byte, but sets `matchActive` to (matchActive bit OR waitingForServe bit);
hence matchActive is mirrored as-is exactly for packets in which the
waitingForServe bit implies the matchActive bit (which all host-built
packets satisfy).  The client's own gameplay step never touches either
score. -/
theorem C1_client_mirror (s : GameState) (p : StatePacket) (now : Nat) :
    (processStatePacket s p now).hostScore = p.hostScore ∧
    (processStatePacket s p now).clientScore = p.clientScore ∧
    (processStatePacket s p now).gameOver = (p.flags &&& FLAG_GAME_OVER != 0) ∧
    (processStatePacket s p now).waitingForServe = (p.flags &&& FLAG_WAITING_SERVE != 0) ∧
    (processStatePacket s p now).gamePaused = (p.flags &&& FLAG_PAUSED != 0) ∧
    (processStatePacket s p now).matchActive =
      ((p.flags &&& FLAG_MATCH_ACTIVE != 0) || (p.flags &&& FLAG_WAITING_SERVE != 0)) ∧
    ((p.flags &&& FLAG_WAITING_SERVE ≠ 0 → p.flags &&& FLAG_MATCH_ACTIVE ≠ 0) →
      (processStatePacket s p now).matchActive = (p.flags &&& FLAG_MATCH_ACTIVE != 0)) ∧
    (∀ up dn t dt, (updateClientGameplay s up dn t dt).1.hostScore = s.hostScore ∧
      (updateClientGameplay s up dn t dt).1.clientScore = s.clientScore) := by
  refine ⟨?_, ?_, ?_, ?_, ?_, ?_, ?_, ?_⟩
  · simp only [processStatePacket, setScreen]
    split_ifs <;> rfl
  · simp only [processStatePacket, setScreen]
    split_ifs <;> rfl
  · simp only [processStatePacket, setScreen]
    split_ifs <;> rfl
  · simp only [processStatePacket, setScreen]
    split_ifs <;> rfl
  · simp only [processStatePacket, setScreen]
    split_ifs <;> rfl
  · simp only [processStatePacket, setScreen]
    split_ifs <;> rfl
  · intro himp
    by_cases hws : p.flags &&& FLAG_WAITING_SERVE = 0
    · simp only [processStatePacket, setScreen]
      split_ifs <;> simp [hws]
    · have hma := himp hws
      simp only [processStatePacket, setScreen]
      split_ifs <;> simp [hws, hma]
  · intro up dn t dt
    simp only [updateClientGameplay, sendPaddlePacket]
    split_ifs <;> exact ⟨rfl, rfl⟩

/-- C1 witness: the amended theorem applied at a concrete packet. -/
theorem C1_witness :
    (processStatePacket clientPlaying zeroPkt 5).hostScore = zeroPkt.hostScore ∧
    (processStatePacket clientPlaying zeroPkt 5).matchActive =
      (zeroPkt.flags &&& FLAG_MATCH_ACTIVE != 0) := by
  refine ⟨(C1_client_mirror clientPlaying zeroPkt 5).1, ?_⟩
  exact (C1_client_mirror clientPlaying zeroPkt 5).2.2.2.2.2.2.1 (by decide)

-- ---------------------------------------------------------------------------
-- C8.

/-- C8: applying the same State packet to a Client twice in a row is
idempotent on the MatchState fields (scores, ball, paddles, flags): the
second application changes none of them. -/
theorem C8_idempotent (s : GameState) (p : StatePacket) (t1 t2 : Nat) :
    matchView (processStatePacket (processStatePacket s p t1) p t2) =
      matchView (processStatePacket s p t1) := by
  rw [matchView_processStatePacket, matchView_processStatePacket]

-- ---------------------------------------------------------------------------
-- C2.

/-- C2: a valid Join datagram received while a Host is in HostWaiting
links the peer (address and port taken from the datagram's source), sends
exactly one JoinAck back to that source, resets the match state, and moves
the session to the Lobby. -/
theorem C2_join_handler (s : GameState) (d : Datagram) (now : Nat)
    (htag : d.tag = 1) (hlen : 17 ≤ d.size) (hceil : d.size ≤ 128)
    (hrole : s.role = Role.Host) (hscr : s.screen = Screen.HostWaiting) :
    (processDatagram s d now).1.hasPeer = true ∧
    (processDatagram s d now).1.peerIp = d.srcIp ∧
    (processDatagram s d now).1.peerPort = d.srcPort ∧
    (processDatagram s d now).2 =
      [⟨d.srcIp, d.srcPort, Payload.joinAck (s.localName.take (PLAYER_NAME_MAX_LEN - 1))⟩] ∧
    (processDatagram s d now).1.hostScore = 0 ∧
    (processDatagram s d now).1.clientScore = 0 ∧
    (processDatagram s d now).1.matchActive = false ∧
    (processDatagram s d now).1.waitingForServe = false ∧
    (processDatagram s d now).1.gameOver = false ∧
    (processDatagram s d now).1.gamePaused = false ∧
    (processDatagram s d now).1.frameCounter = 0 ∧
    (processDatagram s d now).1.screen = Screen.Lobby := by
  have hbig : ¬ 128 < d.size := by omega
  simp [processDatagram, htag, hbig, hlen, hrole, hscr, sendJoinAck,
        resetMatchState, resetPaddles, centerBallStationary, setScreen]

/-- C2 witness: the Join handler at a concrete host state and datagram. -/
theorem C2_witness :
    (processDatagram hostWaitingState joinDgram 3).1.hasPeer = true ∧
    (processDatagram hostWaitingState joinDgram 3).1.peerIp = joinDgram.srcIp ∧
    (processDatagram hostWaitingState joinDgram 3).1.peerPort = joinDgram.srcPort ∧
    (processDatagram hostWaitingState joinDgram 3).2 =
      [⟨joinDgram.srcIp, joinDgram.srcPort,
        Payload.joinAck (hostWaitingState.localName.take (PLAYER_NAME_MAX_LEN - 1))⟩] ∧
    (processDatagram hostWaitingState joinDgram 3).1.hostScore = 0 ∧
    (processDatagram hostWaitingState joinDgram 3).1.clientScore = 0 ∧
    (processDatagram hostWaitingState joinDgram 3).1.matchActive = false ∧
    (processDatagram hostWaitingState joinDgram 3).1.waitingForServe = false ∧
    (processDatagram hostWaitingState joinDgram 3).1.gameOver = false ∧
    (processDatagram hostWaitingState joinDgram 3).1.gamePaused = false ∧
    (processDatagram hostWaitingState joinDgram 3).1.frameCounter = 0 ∧
    (processDatagram hostWaitingState joinDgram 3).1.screen = Screen.Lobby :=
  C2_join_handler hostWaitingState joinDgram 3 rfl (by decide) (by decide) rfl rfl

-- ---------------------------------------------------------------------------
-- C7.

/-- C7: an inbound datagram above the 128-byte ceiling, or shorter than
the fixed size its first-byte kind requires, is discarded silently: no
handler runs, the state is unchanged, nothing is sent. -/
theorem C7_malformed_discarded (s : GameState) (d : Datagram) (now : Nat)
    (h : 128 < d.size ∨ ∃ n, requiredSize d.tag = some n ∧ d.size < n) :
    processDatagram s d now = (s, []) := by
  rcases h with h | ⟨n, hn, hlt⟩
  · simp [processDatagram, h]
  · unfold requiredSize at hn
    split at hn
    · injection hn with hn
      subst hn
      have h1 : ¬ 128 < d.size := by omega
      have h2 : ¬ (17 ≤ d.size ∧ s.role = Role.Host ∧ s.screen = Screen.HostWaiting) := by
        rintro ⟨hx, -⟩
        omega
      simp_all [processDatagram, h1, h2]
    · injection hn with hn
      subst hn
      have h1 : ¬ 128 < d.size := by omega
      have h2 : ¬ (17 ≤ d.size ∧ s.role = Role.Client ∧ s.screen = Screen.ClientSearching) := by
        rintro ⟨hx, -⟩
        omega
      simp_all [processDatagram, h1, h2]
    · injection hn with hn
      subst hn
      have h1 : ¬ 128 < d.size := by omega
      have h2 : ¬ (32 ≤ d.size ∧ s.role = Role.Client) := by
        rintro ⟨hx, -⟩
        omega
      simp_all [processDatagram, h1, h2]
    · injection hn with hn
      subst hn
      have h1 : ¬ 128 < d.size := by omega
      have h2 : ¬ (5 ≤ d.size ∧ s.role = Role.Host ∧ s.hasPeer = true) := by
        rintro ⟨hx, -⟩
        omega
      simp_all [processDatagram, h1, h2]
    · injection hn with hn
      subst hn
      have h1 : ¬ 128 < d.size := by omega
      have h2 : ¬ 5 ≤ d.size := by omega
      simp_all [processDatagram, h1, h2]
    · simp_all

/-- C7 witness: an oversized datagram leaves the boot state untouched. -/
theorem C7_witness : processDatagram initialState bigDgram 9 = (initialState, []) :=
  C7_malformed_discarded initialState bigDgram 9 (Or.inl (by decide))

-- ---------------------------------------------------------------------------
-- C3.

/-- C3: a linked Client in Playing or a later phase moves to Error with the
connection-lost message and drops the peer link exactly when more than
`CONNECTION_TIMEOUT_MS` have elapsed since the last received State packet,
and is left completely unchanged when the window has not yet elapsed. -/
theorem C3_client_timeout (s : GameState) (now : Nat)
    (hrole : s.role = Role.Client) (hpeer : s.hasPeer = true)
    (hscr : screenIdx Screen.Playing ≤ screenIdx s.screen)
    (hle : s.lastStateReceived ≤ now) (hnow : now < U32MOD) :
    (CONNECTION_TIMEOUT_MS < now - s.lastStateReceived →
      (handleConnectionTimeout s now).screen = Screen.Error ∧
      (handleConnectionTimeout s now).hasPeer = false ∧
      (handleConnectionTimeout s now).errorMessage = "Lost connection to host.") ∧
    (now - s.lastStateReceived ≤ CONNECTION_TIMEOUT_MS →
      handleConnectionTimeout s now = s) := by
  have hws : wrapSub now s.lastStateReceived = now - s.lastStateReceived :=
    wrapSub_eq now s.lastStateReceived hle hnow
  constructor
  · intro h
    simp [handleConnectionTimeout, hpeer, hrole, hscr, hws, h, setScreen]
  · intro h
    have hcond : ¬ (s.role = Role.Client ∧ screenIdx Screen.Playing ≤ screenIdx s.screen ∧
        CONNECTION_TIMEOUT_MS < wrapSub now s.lastStateReceived) := by
      rintro ⟨-, -, hx⟩
      rw [hws] at hx
      omega
    simp [handleConnectionTimeout, hpeer, hcond]

/-- C3 witness: at 4001 ms of silence the link is torn down, at 4000 ms
nothing happens. -/
theorem C3_witness :
    ((handleConnectionTimeout clientPlaying 4001).screen = Screen.Error ∧
     (handleConnectionTimeout clientPlaying 4001).hasPeer = false ∧
     (handleConnectionTimeout clientPlaying 4001).errorMessage = "Lost connection to host.") ∧
    handleConnectionTimeout clientPlaying 4000 = clientPlaying := by
  constructor
  · exact (C3_client_timeout clientPlaying 4001 rfl rfl (by decide) (by decide)
      (by decide)).1 (by decide)
  · exact (C3_client_timeout clientPlaying 4000 rfl rfl (by decide) (by decide)
      (by decide)).2 (by decide)

-- ---------------------------------------------------------------------------
-- C5.

/-- C5 counterexample: a State packet is sent with frameId 1, then
`resetMatchState` (run on every match start / rematch) zeroes the counter
and the next State packet again carries frameId 1 — not strictly larger,
so the counter is not monotonically increasing across the whole session. -/
theorem C5_counterexample :
    (sentStates (sendStatePacket hostLinked 0).2).map StatePacket.frameId = [1] ∧
    (resetMatchState (sendStatePacket hostLinked 0).1).frameCounter = 0 ∧
    (sentStates (sendStatePacket (resetMatchState (sendStatePacket hostLinked 0).1)
        5).2).map StatePacket.frameId = [1] ∧
    ¬ (1 : Nat) < 1 := by
  decide

/-- C5 (amended): `sendStatePacket` increments the frame counter exactly
once per State packet sent and stamps the new value on the packet, so
between two sends with no intervening `resetMatchState` (which zeroes the
counter) and no 32-bit wrap-around, the later packet carries a strictly
larger frameId. -/
theorem C5_frameId (s : GameState) (t1 t2 : Nat) (hpeer : s.hasPeer = true)
    (hrole : s.role = Role.Host) (hfc : s.frameCounter + 2 < U32MOD) :
    (sentStates (sendStatePacket s t1).2).map StatePacket.frameId = [s.frameCounter + 1] ∧
    (sendStatePacket s t1).1.frameCounter = s.frameCounter + 1 ∧
    (sentStates (sendStatePacket (sendStatePacket s t1).1 t2).2).map StatePacket.frameId =
      [s.frameCounter + 2] ∧
    s.frameCounter + 1 < s.frameCounter + 2 := by
  have hm1 : (s.frameCounter + 1) % U32MOD = s.frameCounter + 1 :=
    Nat.mod_eq_of_lt (by omega)
  have hm2 : ((s.frameCounter + 1) % U32MOD + 1) % U32MOD = s.frameCounter + 2 := by
    rw [hm1]
    exact Nat.mod_eq_of_lt (by omega)
  have hm3 : (s.frameCounter + 1 + 1) % U32MOD = s.frameCounter + 2 :=
    Nat.mod_eq_of_lt (by omega)
  refine ⟨?_, ?_, ?_, by omega⟩ <;>
    simp [sendStatePacket, hpeer, hrole, sentStates, buildStatePacket, hm1, hm2, hm3]

/-- C5 witness: the amended statement at a concrete linked host. -/
theorem C5_witness :
    (sentStates (sendStatePacket hostLinked 0).2).map StatePacket.frameId =
      [hostLinked.frameCounter + 1] ∧
    (sendStatePacket hostLinked 0).1.frameCounter = hostLinked.frameCounter + 1 ∧
    (sentStates (sendStatePacket (sendStatePacket hostLinked 0).1 5).2).map
      StatePacket.frameId = [hostLinked.frameCounter + 2] ∧
    hostLinked.frameCounter + 1 < hostLinked.frameCounter + 2 :=
  C5_frameId hostLinked 0 5 rfl rfl (by decide)

-- ---------------------------------------------------------------------------
-- C6.

/-- C6 counterexample: a Host sitting in the Lobby that receives a Start
datagram transitions to Playing without any local serve command, so the
serve command is not the only event causing Lobby → Playing. -/
theorem C6_counterexample :
    hostLinked.screen = Screen.Lobby ∧ hostLinked.role = Role.Host ∧
    (processDatagram hostLinked startDgram 3).1.screen = Screen.Playing := by
  refine ⟨rfl, rfl, ?_⟩
  decide

/-- C6 (amended): for a linked Host in the Lobby, Lobby → Playing is
triggered by the local serve command or by an inbound Start datagram; the
serve command generates the seed, sends a Start packet carrying it, seeds
the local generator, resets match state, begins serve sequencing toward
the client and transitions to Playing immediately, followed by one State
packet; every non-Start datagram leaves the screen in Lobby, and the quit
command returns to RoleSelect. -/
theorem C6_serve_or_start (s : GameState) (hrole : s.role = Role.Host)
    (hscr : s.screen = Screen.Lobby) (hpeer : s.hasPeer = true) :
    (∀ seed now,
      (serveCommand s seed now).1.screen = Screen.Playing ∧
      (serveCommand s seed now).1.rngSeed = seed ∧
      (serveCommand s seed now).1.hostScore = 0 ∧
      (serveCommand s seed now).1.clientScore = 0 ∧
      (serveCommand s seed now).1.gameOver = false ∧
      (serveCommand s seed now).1.matchActive = true ∧
      (serveCommand s seed now).1.waitingForServe = true ∧
      (serveCommand s seed now).1.serveDirection = 1 ∧
      (serveCommand s seed now).1.serveRequestTs = now ∧
      ∃ p, (serveCommand s seed now).2 =
        [⟨s.peerIp, s.peerPort, Payload.start seed⟩,
         ⟨s.peerIp, s.peerPort, Payload.state p⟩]) ∧
    (∀ d now, (d.tag ≠ 5 ∨ d.size < 5 ∨ 128 < d.size) →
      (processDatagram s d now).1.screen = Screen.Lobby) ∧
    (resetToMainMenu s).screen = Screen.RoleSelect := by
  refine ⟨fun seed now => ?_, fun d now hd => ?_, ?_⟩
  · simp [serveCommand, sendStartPacket, hostStartMatch, prepareServe, resetMatchState,
          resetPaddles, centerBallStationary, setScreen, sendStatePacket, hpeer, hrole,
          buildStatePacket]
  · rcases hd with hd | hd | hd
    · simp only [processDatagram]
      split_ifs <;> simp_all [setScreen]
    · simp only [processDatagram]
      split_ifs <;> first | omega | simp_all [setScreen]
    · simp only [processDatagram]
      split_ifs <;> first | omega | simp_all [setScreen]
  · simp [resetToMainMenu, setScreen]

/-- C6 witness: the amended statement at a concrete linked host in Lobby. -/
theorem C6_witness :
    (serveCommand hostLinked 9 4).1.screen = Screen.Playing ∧
    (processDatagram hostLinked joinDgram 0).1.screen = Screen.Lobby :=
  ⟨((C6_serve_or_start hostLinked rfl rfl rfl).1 9 4).1,
   (C6_serve_or_start hostLinked rfl rfl rfl).2.1 joinDgram 0 (Or.inl (by decide))⟩

-- ---------------------------------------------------------------------------
-- C10.

/-- C10 counterexample: a Host with no peer linked (HostWaiting) that
receives a Start datagram runs `hostStartMatch` and reaches Playing, but
sends no State packet (`sendStatePacket` silently bails without a peer),
contradicting the claim that hostStartMatch sends a State packet
regardless of whether a peer is linked. -/
theorem C10_counterexample :
    hostWaitingState.hasPeer = false ∧
    (processDatagram hostWaitingState startDgram 0).1.screen = Screen.Playing ∧
    (processDatagram hostWaitingState startDgram 0).2 = [] := by
  decide

/-- C10 (amended): a sufficiently long Start datagram is applied regardless
of screen, role or peer link: a Host runs `hostStartMatch` (reseeds, resets
match state, serves toward the client, transitions to Playing, and sends
one State packet if — and only if — a peer is linked); any other role runs
`clientStartMatch` and transitions to Playing. -/
theorem C10_start_any_state (s : GameState) (d : Datagram) (now : Nat)
    (htag : d.tag = 5) (hlen : 5 ≤ d.size) (hceil : d.size ≤ 128) :
    (s.role = Role.Host →
      processDatagram s d now = hostStartMatch s d.seed now ∧
      (hostStartMatch s d.seed now).1.screen = Screen.Playing ∧
      (hostStartMatch s d.seed now).1.rngSeed = d.seed ∧
      (hostStartMatch s d.seed now).1.waitingForServe = true ∧
      (hostStartMatch s d.seed now).1.matchActive = true ∧
      (hostStartMatch s d.seed now).1.serveDirection = 1 ∧
      (hostStartMatch s d.seed now).1.hostScore = 0 ∧
      (hostStartMatch s d.seed now).1.clientScore = 0 ∧
      (s.hasPeer = true →
        ∃ p, (hostStartMatch s d.seed now).2 = [⟨s.peerIp, s.peerPort, Payload.state p⟩]) ∧
      (s.hasPeer = false → (hostStartMatch s d.seed now).2 = [])) ∧
    (s.role ≠ Role.Host →
      processDatagram s d now = (clientStartMatch s d.seed, []) ∧
      (clientStartMatch s d.seed).screen = Screen.Playing ∧
      (clientStartMatch s d.seed).rngSeed = d.seed ∧
      (clientStartMatch s d.seed).waitingForServe = true ∧
      (clientStartMatch s d.seed).matchActive = true ∧
      (clientStartMatch s d.seed).serveDirection = 1) := by
  have hbig : ¬ 128 < d.size := by omega
  constructor
  · intro hr
    refine ⟨by simp [processDatagram, htag, hbig, hlen, hr], ?_, ?_, ?_, ?_, ?_, ?_, ?_, ?_, ?_⟩
    · simp [hostStartMatch, prepareServe, resetMatchState, resetPaddles,
            centerBallStationary, setScreen, sendStatePacket]
      split_ifs <;> rfl
    · simp [hostStartMatch, prepareServe, resetMatchState, resetPaddles,
            centerBallStationary, setScreen, sendStatePacket]
      split_ifs <;> rfl
    · simp [hostStartMatch, prepareServe, resetMatchState, resetPaddles,
            centerBallStationary, setScreen, sendStatePacket]
      split_ifs <;> rfl
    · simp [hostStartMatch, prepareServe, resetMatchState, resetPaddles,
            centerBallStationary, setScreen, sendStatePacket]
      split_ifs <;> rfl
    · simp [hostStartMatch, prepareServe, resetMatchState, resetPaddles,
            centerBallStationary, setScreen, sendStatePacket]
      split_ifs <;> rfl
    · simp [hostStartMatch, prepareServe, resetMatchState, resetPaddles,
            centerBallStationary, setScreen, sendStatePacket]
      split_ifs <;> rfl
    · simp [hostStartMatch, prepareServe, resetMatchState, resetPaddles,
            centerBallStationary, setScreen, sendStatePacket]
      split_ifs <;> rfl
    · intro hp
      simp [hostStartMatch, prepareServe, resetMatchState, resetPaddles,
            centerBallStationary, setScreen, sendStatePacket, hp, hr, buildStatePacket]
    · intro hp
      simp [hostStartMatch, prepareServe, resetMatchState, resetPaddles,
            centerBallStationary, setScreen, sendStatePacket, hp]
  · intro hr
    refine ⟨by simp [processDatagram, htag, hbig, hlen, hr], ?_, ?_, ?_, ?_, ?_⟩ <;>
      simp [clientStartMatch, resetMatchState, resetPaddles, centerBallStationary, setScreen]

/-- C10 witness: the amended statement at a concrete playing client. -/
theorem C10_witness :
    processDatagram clientPlaying startDgram 0 =
      (clientStartMatch clientPlaying startDgram.seed, []) ∧
    (clientStartMatch clientPlaying startDgram.seed).screen = Screen.Playing :=
  ⟨((C10_start_any_state clientPlaying startDgram 0 rfl (by decide) (by decide)).2
      (by decide)).1,
   ((C10_start_any_state clientPlaying startDgram 0 rfl (by decide) (by decide)).2
      (by decide)).2.1⟩

-- ---------------------------------------------------------------------------
-- Preservation of the per-peer invariant by every operation (for C4 / C9).

theorem clampValue_le (v lo hi : ℚ) (h : lo ≤ hi) :
    lo ≤ clampValue v lo hi ∧ clampValue v lo hi ≤ hi := by
  unfold clampValue
  split_ifs with h1 h2
  · exact ⟨le_refl lo, h⟩
  · exact ⟨h, le_refl hi⟩
  · exact ⟨not_lt.mp h1, not_lt.mp h2⟩

theorem paddle_range_le : PADDLE_HALF_HEIGHT ≤ SCREEN_HEIGHT - PADDLE_HALF_HEIGHT := by
  norm_num [PADDLE_HALF_HEIGHT, PADDLE_HEIGHT, SCREEN_HEIGHT]

theorem flagsOf_bits (s : GameState) :
    (flagsOf s &&& FLAG_MATCH_ACTIVE ≠ 0 ↔ s.matchActive = true) ∧
    (flagsOf s &&& FLAG_WAITING_SERVE ≠ 0 ↔ s.waitingForServe = true) := by
  cases hma : s.matchActive <;> cases hws : s.waitingForServe <;>
    cases hgo : s.gameOver <;> cases hgp : s.gamePaused <;>
      simp only [flagsOf, hma, hws, hgo, hgp] <;> decide

theorem goodPkt_build (s : GameState) (fid : Nat) (h : StateInv s) :
    GoodPkt (buildStatePacket s fid) := by
  obtain ⟨h1, h2, h3, h4, h5, h6, h7, h8⟩ := h
  refine ⟨h1, h2, h3, h4, h5, h6, ?_⟩
  intro hbit
  rcases hbit with hb | hb
  · exact h8 ((flagsOf_bits s).1.mp hb)
  · exact h8 (h7 ((flagsOf_bits s).2.mp hb))

theorem inv_initialState : StateInv initialState := by
  unfold StateInv initialState PADDLE_HALF_HEIGHT PADDLE_HEIGHT SCREEN_HEIGHT MAX_SCORE
  norm_num

theorem inv_resetMatchState (s : GameState) : StateInv (resetMatchState s) := by
  unfold StateInv resetMatchState resetPaddles centerBallStationary
  unfold PADDLE_HALF_HEIGHT PADDLE_HEIGHT SCREEN_HEIGHT MAX_SCORE
  norm_num

theorem inv_prepareServe (s : GameState) (dir : Int) (now : Nat) (h : StateInv s)
    (hh : s.hostScore < MAX_SCORE) (hc : s.clientScore < MAX_SCORE) :
    StateInv (prepareServe s dir now) := by
  obtain ⟨h1, h2, h3, h4, h5, h6, h7, h8⟩ := h
  exact ⟨h1, h2, h3, h4, h5, h6, fun _ => rfl, fun _ => ⟨hh, hc⟩⟩

theorem inv_launchBall (s : GameState) (arc : Int) (h : StateInv s) :
    StateInv (launchBall s arc) := by
  obtain ⟨h1, h2, h3, h4, h5, h6, h7, h8⟩ := h
  refine ⟨h1, h2, h3, h4, h5, h6, ?_, ?_⟩
  · intro hx
    simp [launchBall] at hx
  · exact h8

theorem inv_checkForServeLaunch (s : GameState) (now : Nat) (arc : Int)
    (h : StateInv s) : StateInv (checkForServeLaunch s now arc) := by
  unfold checkForServeLaunch
  split_ifs with hc
  · exact inv_launchBall s arc h
  · exact h

theorem checkForServeLaunch_fields (s : GameState) (now : Nat) (arc : Int) :
    (checkForServeLaunch s now arc).hostScore = s.hostScore ∧
    (checkForServeLaunch s now arc).clientScore = s.clientScore ∧
    (checkForServeLaunch s now arc).matchActive = s.matchActive := by
  unfold checkForServeLaunch launchBall
  split_ifs <;> exact ⟨rfl, rfl, rfl⟩

theorem inv_sendStatePacket (s : GameState) (now : Nat) (h : StateInv s) :
    StateInv (sendStatePacket s now).1 ∧
    ∀ p ∈ sentStates (sendStatePacket s now).2, GoodPkt p := by
  unfold sendStatePacket
  split_ifs with hc
  · exact ⟨h, by simp [sentStates]⟩
  · constructor
    · exact h
    · intro p hp
      simp [sentStates] at hp
      subst hp
      exact goodPkt_build s _ h

theorem inv_markGameOver (s : GameState) (now : Nat)
    (hh : s.hostScore ≤ MAX_SCORE) (hc : s.clientScore ≤ MAX_SCORE)
    (hp3 : PADDLE_HALF_HEIGHT ≤ s.hostPaddleY)
    (hp4 : s.hostPaddleY ≤ SCREEN_HEIGHT - PADDLE_HALF_HEIGHT)
    (hp5 : PADDLE_HALF_HEIGHT ≤ s.clientPaddleY)
    (hp6 : s.clientPaddleY ≤ SCREEN_HEIGHT - PADDLE_HALF_HEIGHT) :
    StateInv (markGameOver s now).1 ∧
    ∀ p ∈ sentStates (markGameOver s now).2, GoodPkt p := by
  have hinv1 : StateInv (centerBallStationary
      { s with gameOver := true, matchActive := false, waitingForServe := false }) := by
    refine ⟨hh, hc, hp3, hp4, hp5, hp6, ?_, ?_⟩
    · intro hx
      simp [centerBallStationary] at hx
    · intro hm
      simp [centerBallStationary] at hm
  simp only [markGameOver]
  split_ifs with hr
  · have h2 := inv_sendStatePacket (centerBallStationary
      { s with gameOver := true, matchActive := false, waitingForServe := false }) now hinv1
    exact ⟨h2.1, h2.2⟩
  · exact ⟨hinv1, by simp [sentStates]⟩

theorem ballPhysics_fields (s : GameState) (dt : ℚ) :
    (ballPhysics s dt).hostScore = s.hostScore ∧
    (ballPhysics s dt).clientScore = s.clientScore ∧
    (ballPhysics s dt).hostPaddleY = s.hostPaddleY ∧
    (ballPhysics s dt).clientPaddleY = s.clientPaddleY ∧
    (ballPhysics s dt).matchActive = s.matchActive ∧
    (ballPhysics s dt).waitingForServe = s.waitingForServe := by
  simp only [ballPhysics]
  split_ifs <;> exact ⟨rfl, rfl, rfl, rfl, rfl, rfl⟩

theorem inv_ballPhysics (s : GameState) (dt : ℚ) (h : StateInv s) :
    StateInv (ballPhysics s dt) := by
  obtain ⟨e1, e2, e3, e4, e5, e6⟩ := ballPhysics_fields s dt
  unfold StateInv at h ⊢
  rw [e1, e2, e3, e4, e5, e6]
  exact h

theorem inv_scoringPhase (s : GameState) (now : Nat) (h : StateInv s)
    (hh : s.hostScore < MAX_SCORE) (hc : s.clientScore < MAX_SCORE) :
    StateInv (scoringPhase s now).1 ∧
    ∀ p ∈ sentStates (scoringPhase s now).2, GoodPkt p := by
  obtain ⟨h1, h2, h3, h4, h5, h6, h7, h8⟩ := h
  have hcs : (s.clientScore + 1) % U8MOD = s.clientScore + 1 :=
    Nat.mod_eq_of_lt (by unfold MAX_SCORE at hc; unfold U8MOD; omega)
  have hhs : (s.hostScore + 1) % U8MOD = s.hostScore + 1 :=
    Nat.mod_eq_of_lt (by unfold MAX_SCORE at hh; unfold U8MOD; omega)
  simp only [scoringPhase]
  split_ifs with hb1 hb2 hb3 hb4
  · refine inv_markGameOver _ now h1 ?_ h3 h4 h5 h6
    show (s.clientScore + 1) % U8MOD ≤ MAX_SCORE
    rw [hcs]
    unfold MAX_SCORE at hc ⊢
    omega
  · constructor
    · exact inv_prepareServe _ 1 now
        ⟨h1, le_of_lt (not_le.mp hb2), h3, h4, h5, h6, h7,
         fun hm => ⟨hh, not_le.mp hb2⟩⟩ hh (not_le.mp hb2)
    · simp [sentStates]
  · refine inv_markGameOver _ now ?_ h2 h3 h4 h5 h6
    show (s.hostScore + 1) % U8MOD ≤ MAX_SCORE
    rw [hhs]
    unfold MAX_SCORE at hh ⊢
    omega
  · constructor
    · exact inv_prepareServe _ (-1) now
        ⟨le_of_lt (not_le.mp hb4), h2, h3, h4, h5, h6, h7,
         fun hm => ⟨not_le.mp hb4, hc⟩⟩ (not_le.mp hb4) hc
    · simp [sentStates]
  · exact ⟨⟨h1, h2, h3, h4, h5, h6, h7, h8⟩, by simp [sentStates]⟩

@[simp]
theorem sentStates_nil : sentStates [] = [] := rfl

@[simp]
theorem sentStates_cons_join (ip pt : Nat) (n : String) (rest : List Sent) :
    sentStates (⟨ip, pt, Payload.join n⟩ :: rest) = sentStates rest := rfl

@[simp]
theorem sentStates_cons_joinAck (ip pt : Nat) (n : String) (rest : List Sent) :
    sentStates (⟨ip, pt, Payload.joinAck n⟩ :: rest) = sentStates rest := rfl

@[simp]
theorem sentStates_cons_start (ip pt seed : Nat) (rest : List Sent) :
    sentStates (⟨ip, pt, Payload.start seed⟩ :: rest) = sentStates rest := rfl

@[simp]
theorem sentStates_cons_paddle (ip pt : Nat) (y : ℚ) (rest : List Sent) :
    sentStates (⟨ip, pt, Payload.paddle y⟩ :: rest) = sentStates rest := rfl

@[simp]
theorem sentStates_cons_state (ip pt : Nat) (p : StatePacket) (rest : List Sent) :
    sentStates (⟨ip, pt, Payload.state p⟩ :: rest) = p :: sentStates rest := rfl

theorem sentStates_append (a b : List Sent) :
    sentStates (a ++ b) = sentStates a ++ sentStates b :=
  List.filterMap_append a b _

theorem sendJoinAck_fst (s : GameState) : (sendJoinAck s).1 = s := by
  unfold sendJoinAck
  split_ifs <;> rfl

theorem sentStates_sendJoinAck (s : GameState) : sentStates (sendJoinAck s).2 = [] := by
  unfold sendJoinAck
  split_ifs <;> rfl

theorem sendStartPacket_fst (s : GameState) (seed : Nat) :
    (sendStartPacket s seed).1 = s := by
  unfold sendStartPacket
  split_ifs <;> rfl

theorem sentStates_sendStartPacket (s : GameState) (seed : Nat) :
    sentStates (sendStartPacket s seed).2 = [] := by
  unfold sendStartPacket
  split_ifs <;> rfl

theorem inv_hostPaddleClamped (s : GameState) (h : StateInv s) (y : ℚ) :
    StateInv { s with hostPaddleY := clampValue y PADDLE_HALF_HEIGHT (SCREEN_HEIGHT - PADDLE_HALF_HEIGHT) } := by
  obtain ⟨h1, h2, h3, h4, h5, h6, h7, h8⟩ := h
  have hc := clampValue_le y _ _ paddle_range_le
  exact ⟨h1, h2, hc.1, hc.2, h5, h6, h7, h8⟩

theorem inv_clientPaddleClamped (s : GameState) (h : StateInv s) (y : ℚ) :
    StateInv { s with clientPaddleY := clampValue y PADDLE_HALF_HEIGHT (SCREEN_HEIGHT - PADDLE_HALF_HEIGHT) } := by
  obtain ⟨h1, h2, h3, h4, h5, h6, h7, h8⟩ := h
  have hc := clampValue_le y _ _ paddle_range_le
  exact ⟨h1, h2, h3, h4, hc.1, hc.2, h7, h8⟩

theorem inv_hostTail (s3 : GameState) (now : Nat) (dt : ℚ) (arc : Int)
    (h : StateInv s3) (hma : s3.matchActive = true) :
    StateInv (if (checkForServeLaunch s3 now arc).waitingForServe = true
        then ((checkForServeLaunch s3 now arc), ([] : List Sent))
        else scoringPhase (ballPhysics (checkForServeLaunch s3 now arc) dt) now).1 ∧
    ∀ p ∈ sentStates (if (checkForServeLaunch s3 now arc).waitingForServe = true
        then ((checkForServeLaunch s3 now arc), ([] : List Sent))
        else scoringPhase (ballPhysics (checkForServeLaunch s3 now arc) dt) now).2,
      GoodPkt p := by
  have hs4 := inv_checkForServeLaunch s3 now arc h
  split_ifs with hw
  · exact ⟨hs4, by simp⟩
  · obtain ⟨e1, e2, e3, e4, e5, e6⟩ := ballPhysics_fields (checkForServeLaunch s3 now arc) dt
    obtain ⟨f1, f2, f3⟩ := checkForServeLaunch_fields s3 now arc
    have hma4 : (checkForServeLaunch s3 now arc).matchActive = true := by
      rw [f3]
      exact hma
    have hsc := hs4.2.2.2.2.2.2.2 hma4
    refine inv_scoringPhase _ now (inv_ballPhysics _ dt hs4) ?_ ?_
    · rw [e1]
      exact hsc.1
    · rw [e2]
      exact hsc.2

theorem inv_updateHostGameplay (s : GameState) (up dn : Bool) (now : Nat) (dt : ℚ)
    (arc : Int) (h : StateInv s) :
    StateInv (updateHostGameplay s up dn now dt arc).1 ∧
    ∀ p ∈ sentStates (updateHostGameplay s up dn now dt arc).2, GoodPkt p := by
  simp only [updateHostGameplay]
  by_cases hguard : s.matchActive = false ∧ s.waitingForServe = false
  · rw [if_pos hguard]
    exact ⟨h, by simp⟩
  · rw [if_neg hguard]
    have hma : s.matchActive = true := by
      by_cases hb : s.matchActive = true
      · exact hb
      · have hbf : s.matchActive = false := by simpa using hb
        by_cases hw2 : s.waitingForServe = true
        · exact h.2.2.2.2.2.2.1 hw2
        · exact absurd ⟨hbf, by simpa using hw2⟩ hguard
    cases up <;> cases dn <;>
      exact inv_hostTail _ now dt arc (inv_hostPaddleClamped s h _) hma

theorem inv_sendPaddlePacket (s : GameState) (now : Nat) (h : StateInv s) :
    StateInv (sendPaddlePacket s now).1 ∧
    ∀ p ∈ sentStates (sendPaddlePacket s now).2, GoodPkt p := by
  unfold sendPaddlePacket
  split_ifs with hc
  · exact ⟨h, by simp⟩
  · exact ⟨h, by simp⟩

theorem inv_updateClientGameplay (s : GameState) (up dn : Bool) (now : Nat) (dt : ℚ)
    (h : StateInv s) :
    StateInv (updateClientGameplay s up dn now dt).1 ∧
    ∀ p ∈ sentStates (updateClientGameplay s up dn now dt).2, GoodPkt p := by
  simp only [updateClientGameplay]
  split_ifs <;>
    first
      | exact ⟨h, by simp⟩
      | exact inv_sendPaddlePacket _ now (inv_clientPaddleClamped s h _)
      | exact ⟨inv_clientPaddleClamped s h _, by simp⟩

theorem inv_handleConnectionTimeout (s : GameState) (now : Nat) (h : StateInv s) :
    StateInv (handleConnectionTimeout s now) := by
  unfold handleConnectionTimeout
  split_ifs <;> exact h

theorem inv_hostStartMatch (s : GameState) (seed now : Nat) :
    StateInv (hostStartMatch s seed now).1 ∧
    ∀ p ∈ sentStates (hostStartMatch s seed now).2, GoodPkt p := by
  have h0 : StateInv (resetMatchState { s with rngSeed := seed }) := inv_resetMatchState _
  have h1 : StateInv (prepareServe (resetMatchState { s with rngSeed := seed }) 1 now) := by
    refine inv_prepareServe _ 1 now h0 ?_ ?_
    · show (0 : Nat) < MAX_SCORE
      decide
    · show (0 : Nat) < MAX_SCORE
      decide
  simp only [hostStartMatch]
  exact inv_sendStatePacket _ now h1

theorem inv_clientStartMatch (s : GameState) (seed : Nat) :
    StateInv (clientStartMatch s seed) := by
  unfold StateInv clientStartMatch setScreen resetMatchState resetPaddles centerBallStationary
  unfold PADDLE_HALF_HEIGHT PADDLE_HEIGHT SCREEN_HEIGHT MAX_SCORE
  norm_num

theorem inv_processStatePacket (s : GameState) (p : StatePacket) (now : Nat)
    (hp : GoodPkt p) : StateInv (processStatePacket s p now) := by
  obtain ⟨g1, g2, g3, g4, g5, g6, g7⟩ := hp
  have hflag : ((p.flags &&& FLAG_MATCH_ACTIVE != 0) ||
        (p.flags &&& FLAG_WAITING_SERVE != 0)) = true →
      p.hostScore < MAX_SCORE ∧ p.clientScore < MAX_SCORE := by
    intro hm
    exact g7 (by simpa using hm)
  have himp : (p.flags &&& FLAG_WAITING_SERVE != 0) = true →
      ((p.flags &&& FLAG_MATCH_ACTIVE != 0) ||
        (p.flags &&& FLAG_WAITING_SERVE != 0)) = true := by
    intro hx
    simp [hx]
  simp only [processStatePacket, setScreen]
  split_ifs <;> exact ⟨g1, g2, g3, g4, g5, g6, himp, hflag⟩

theorem inv_processDatagram (s : GameState) (d : Datagram) (now : Nat) (h : StateInv s)
    (hd : d.tag = 3 → 32 ≤ d.size → d.size ≤ 128 → GoodPkt d.state) :
    StateInv (processDatagram s d now).1 ∧
    ∀ p ∈ sentStates (processDatagram s d now).2, GoodPkt p := by
  by_cases h0 : 128 < d.size
  · simp only [processDatagram, if_pos h0]
    exact ⟨h, by simp⟩
  simp only [processDatagram, if_neg h0]
  by_cases ht1 : d.tag = 1
  · simp only [if_pos ht1]
    by_cases hg : 17 ≤ d.size ∧ s.role = Role.Host ∧ s.screen = Screen.HostWaiting
    · simp only [if_pos hg]
      constructor
      · rw [sendJoinAck_fst]
        unfold StateInv setScreen resetMatchState resetPaddles centerBallStationary
        unfold PADDLE_HALF_HEIGHT PADDLE_HEIGHT SCREEN_HEIGHT MAX_SCORE
        norm_num
      · rw [sentStates_sendJoinAck]
        simp
    · simp only [if_neg hg]
      exact ⟨h, by simp⟩
  simp only [if_neg ht1]
  by_cases ht2 : d.tag = 2
  · simp only [if_pos ht2]
    by_cases hg : 17 ≤ d.size ∧ s.role = Role.Client ∧ s.screen = Screen.ClientSearching
    · simp only [if_pos hg]
      constructor
      · unfold StateInv setScreen resetMatchState resetPaddles centerBallStationary
        unfold PADDLE_HALF_HEIGHT PADDLE_HEIGHT SCREEN_HEIGHT MAX_SCORE
        norm_num
      · simp
    · simp only [if_neg hg]
      exact ⟨h, by simp⟩
  simp only [if_neg ht2]
  by_cases ht3 : d.tag = 3
  · simp only [if_pos ht3]
    by_cases hg : 32 ≤ d.size ∧ s.role = Role.Client
    · simp only [if_pos hg]
      exact ⟨inv_processStatePacket s d.state now (hd ht3 hg.1 (by omega)), by simp⟩
    · simp only [if_neg hg]
      exact ⟨h, by simp⟩
  simp only [if_neg ht3]
  by_cases ht4 : d.tag = 4
  · simp only [if_pos ht4]
    by_cases hg : 5 ≤ d.size ∧ s.role = Role.Host ∧ s.hasPeer = true
    · simp only [if_pos hg]
      exact ⟨inv_clientPaddleClamped s h _, by simp⟩
    · simp only [if_neg hg]
      exact ⟨h, by simp⟩
  simp only [if_neg ht4]
  by_cases ht5 : d.tag = 5
  · simp only [if_pos ht5]
    by_cases hg : 5 ≤ d.size
    · simp only [if_pos hg]
      by_cases hr : s.role = Role.Host
      · simp only [if_pos hr]
        exact inv_hostStartMatch s d.seed now
      · simp only [if_neg hr]
        exact ⟨inv_clientStartMatch s d.seed, by simp⟩
    · simp only [if_neg hg]
      exact ⟨h, by simp⟩
  simp only [if_neg ht5]
  exact ⟨h, by simp⟩

theorem inv_resetToMainMenu (s : GameState) : StateInv (resetToMainMenu s) := by
  unfold StateInv resetToMainMenu setScreen resetMatchState resetPaddles centerBallStationary
  unfold PADDLE_HALF_HEIGHT PADDLE_HEIGHT SCREEN_HEIGHT MAX_SCORE
  norm_num

theorem inv_resetToWifiSetup (s : GameState) : StateInv (resetToWifiSetup s) := by
  unfold StateInv resetToWifiSetup setScreen resetMatchState resetPaddles centerBallStationary
  unfold PADDLE_HALF_HEIGHT PADDLE_HEIGHT SCREEN_HEIGHT MAX_SCORE
  norm_num

theorem inv_startHosting (s : GameState) (bindOk : Bool) (h : StateInv s) :
    StateInv (startHosting s bindOk) := by
  unfold startHosting setScreen
  split_ifs
  · exact h
  · unfold StateInv resetMatchState resetPaddles centerBallStationary
    unfold PADDLE_HALF_HEIGHT PADDLE_HEIGHT SCREEN_HEIGHT MAX_SCORE
    norm_num

theorem inv_startJoining (s : GameState) (bindOk : Bool) (h : StateInv s) :
    StateInv (startJoining s bindOk) := by
  unfold startJoining setScreen
  split_ifs
  · exact h
  · unfold StateInv resetMatchState resetPaddles centerBallStationary
    unfold PADDLE_HALF_HEIGHT PADDLE_HEIGHT SCREEN_HEIGHT MAX_SCORE
    norm_num

theorem inv_serveCommand (s : GameState) (seed now : Nat) (_h : StateInv s) :
    StateInv (serveCommand s seed now).1 ∧
    ∀ p ∈ sentStates (serveCommand s seed now).2, GoodPkt p := by
  simp only [serveCommand]
  constructor
  · rw [sendStartPacket_fst]
    exact (inv_hostStartMatch s seed now).1
  · intro p hp
    rw [sendStartPacket_fst, sentStates_append, sentStates_sendStartPacket] at hp
    simp only [List.nil_append] at hp
    exact (inv_hostStartMatch s seed now).2 p hp

theorem inv_pauseToggle (s : GameState) (now : Nat) (h : StateInv s) :
    StateInv (pauseToggle s now).1 ∧
    ∀ p ∈ sentStates (pauseToggle s now).2, GoodPkt p := by
  unfold pauseToggle
  exact inv_sendStatePacket _ now h

theorem inv_applyEvent (s : GameState) (e : Event) (h : StateInv s)
    (hrecv : ∀ d now, e = Event.recv d now →
      d.tag = 3 → 32 ≤ d.size → d.size ≤ 128 → GoodPkt d.state) :
    StateInv (applyEvent s e).1 ∧ ∀ p ∈ sentStates (applyEvent s e).2, GoodPkt p := by
  cases e with
  | quitCmd =>
    simp only [applyEvent]
    exact ⟨inv_resetToMainMenu s, by simp⟩
  | wifiCmd =>
    simp only [applyEvent]
    exact ⟨inv_resetToWifiSetup s, by simp⟩
  | hostCmd bindOk =>
    simp only [applyEvent]
    exact ⟨inv_startHosting s bindOk h, by simp⟩
  | joinCmd bindOk =>
    simp only [applyEvent]
    exact ⟨inv_startJoining s bindOk h, by simp⟩
  | serveCmd seed now =>
    simp only [applyEvent]
    exact inv_serveCommand s seed now h
  | pauseCmd now =>
    simp only [applyEvent]
    exact inv_pauseToggle s now h
  | stateSend now =>
    simp only [applyEvent]
    exact inv_sendStatePacket s now h
  | hostTick up dn now dt arc =>
    simp only [applyEvent]
    exact inv_updateHostGameplay s up dn now dt arc h
  | clientTick up dn now dt =>
    simp only [applyEvent]
    exact inv_updateClientGameplay s up dn now dt h
  | joinBroadcastTick now =>
    simp only [applyEvent, sendJoinBroadcast]
    exact ⟨h, by simp⟩
  | timeoutCheck now =>
    simp only [applyEvent]
    exact ⟨inv_handleConnectionTimeout s now h, by simp⟩
  | recv d now =>
    simp only [applyEvent]
    exact inv_processDatagram s d now h (hrecv d now rfl)
  | setName n =>
    simp only [applyEvent]
    exact ⟨h, by simp⟩

theorem sysStep_inv (w w' : Sys) (hs : SysStep w w') (h : SysInv w) : SysInv w' := by
  obtain ⟨ha, hb, hww⟩ := h
  cases hs with
  | stepA e hok =>
    have hrecv : ∀ d now, e = Event.recv d now →
        d.tag = 3 → 32 ≤ d.size → d.size ≤ 128 → GoodPkt d.state := by
      intro d now he h3 h32 h128
      subst he
      exact hww _ (hok h3 h32 h128)
    have he := inv_applyEvent w.a e ha hrecv
    refine ⟨he.1, hb, ?_⟩
    intro p hp
    simp only [stepPeerA] at hp
    rcases List.mem_append.mp hp with hp | hp
    · exact hww p hp
    · exact he.2 p hp
  | stepB e hok =>
    have hrecv : ∀ d now, e = Event.recv d now →
        d.tag = 3 → 32 ≤ d.size → d.size ≤ 128 → GoodPkt d.state := by
      intro d now he h3 h32 h128
      subst he
      exact hww _ (hok h3 h32 h128)
    have he := inv_applyEvent w.b e hb hrecv
    refine ⟨ha, he.1, ?_⟩
    intro p hp
    simp only [stepPeerB] at hp
    rcases List.mem_append.mp hp with hp | hp
    · exact hww p hp
    · exact he.2 p hp

theorem sysReach_inv (w : Sys) (hw : SysReach w) : SysInv w := by
  induction hw with
  | init => exact ⟨inv_initialState, inv_initialState, by simp [sysInit]⟩
  | next w1 w2 hw1 hs ih => exact sysStep_inv w1 w2 hs ih

-- ---------------------------------------------------------------------------
-- C4.

/-- C4: in every reachable configuration of the closed two-peer system,
both score counters of both peers lie in 0..=MAX_SCORE (the lower bound is
the type: scores are naturals). -/
theorem C4_scores_bounded (w : Sys) (hw : SysReach w) :
    w.a.hostScore ≤ MAX_SCORE ∧ w.a.clientScore ≤ MAX_SCORE ∧
    w.b.hostScore ≤ MAX_SCORE ∧ w.b.clientScore ≤ MAX_SCORE := by
  obtain ⟨ha, hb, -⟩ := sysReach_inv w hw
  exact ⟨ha.1, ha.2.1, hb.1, hb.2.1⟩

/-- C4 witness: the bound at the initial configuration. -/
theorem C4_witness :
    sysInit.a.hostScore ≤ MAX_SCORE ∧ sysInit.a.clientScore ≤ MAX_SCORE ∧
    sysInit.b.hostScore ≤ MAX_SCORE ∧ sysInit.b.clientScore ≤ MAX_SCORE :=
  C4_scores_bounded sysInit SysReach.init

-- ---------------------------------------------------------------------------
-- C9.

/-- C9: in every reachable configuration of the closed two-peer system,
all four paddle positions lie in [half-paddle-height, screen-height minus
half-paddle-height]; moreover `clampValue` sends any position commanded
above the top of the play-field to exactly half-paddle-height, and its
result always stays in the legal range (hence never negative and never
above screen height minus half-paddle-height). -/
theorem C9_paddles_clamped :
    (∀ w : Sys, SysReach w →
      (PADDLE_HALF_HEIGHT ≤ w.a.hostPaddleY ∧
        w.a.hostPaddleY ≤ SCREEN_HEIGHT - PADDLE_HALF_HEIGHT) ∧
      (PADDLE_HALF_HEIGHT ≤ w.a.clientPaddleY ∧
        w.a.clientPaddleY ≤ SCREEN_HEIGHT - PADDLE_HALF_HEIGHT) ∧
      (PADDLE_HALF_HEIGHT ≤ w.b.hostPaddleY ∧
        w.b.hostPaddleY ≤ SCREEN_HEIGHT - PADDLE_HALF_HEIGHT) ∧
      (PADDLE_HALF_HEIGHT ≤ w.b.clientPaddleY ∧
        w.b.clientPaddleY ≤ SCREEN_HEIGHT - PADDLE_HALF_HEIGHT)) ∧
    (∀ v : ℚ, v < PADDLE_HALF_HEIGHT →
      clampValue v PADDLE_HALF_HEIGHT (SCREEN_HEIGHT - PADDLE_HALF_HEIGHT) =
        PADDLE_HALF_HEIGHT) ∧
    (∀ v : ℚ,
      PADDLE_HALF_HEIGHT ≤ clampValue v PADDLE_HALF_HEIGHT (SCREEN_HEIGHT - PADDLE_HALF_HEIGHT) ∧
      clampValue v PADDLE_HALF_HEIGHT (SCREEN_HEIGHT - PADDLE_HALF_HEIGHT) ≤
        SCREEN_HEIGHT - PADDLE_HALF_HEIGHT) := by
  refine ⟨?_, ?_, ?_⟩
  · intro w hw
    obtain ⟨ha, hb, -⟩ := sysReach_inv w hw
    exact ⟨⟨ha.2.2.1, ha.2.2.2.1⟩, ⟨ha.2.2.2.2.1, ha.2.2.2.2.2.1⟩,
           ⟨hb.2.2.1, hb.2.2.2.1⟩, ⟨hb.2.2.2.2.1, hb.2.2.2.2.2.1⟩⟩
  · intro v hv
    unfold clampValue
    rw [if_pos hv]
  · intro v
    exact clampValue_le v _ _ paddle_range_le

/-- C9 witness: the range at the initial configuration and the exact clamp
at a concrete out-of-range command. -/
theorem C9_witness :
    PADDLE_HALF_HEIGHT ≤ sysInit.a.hostPaddleY ∧
    clampValue 0 PADDLE_HALF_HEIGHT (SCREEN_HEIGHT - PADDLE_HALF_HEIGHT) =
      PADDLE_HALF_HEIGHT :=
  ⟨((C9_paddles_clamped.1 sysInit SysReach.init).1).1,
   C9_paddles_clamped.2.1 0 (by norm_num [PADDLE_HALF_HEIGHT, PADDLE_HEIGHT])⟩

end Pong
